import Mathlib

/-!
Verification of the FASST-CAT gas delivery core against its specification.

The definitions below are a shallow embedding of the Python sources:
* `fasstcat/flowSMS.py` — `FlowSMS.set_flowrate`, `FlowSMS.setpoints`;
* `fasstcat/valves.py` — `ValvesBase.get_valve_position`,
  `ValvesBase.move_valve_to_position`;
* `fasstcat/utils.py` — the `pressure_alarm` watchdog (`monitor_pressure`);
* `eurothermTCP.py` — `EuroTCP.retry_write`.

Flows, calibration factors and pressures are modelled as rationals; Python's
`int()` conversion is truncation toward zero; device traffic is modelled as
explicit lists of write events; interactive console input and the device
transport are supplied as explicit oracles.
-/

namespace FasstCat

/-- One entry of the gas configuration, as loaded by
`FlowSMS.load_gas_config`: device node id, optional calibration-curve id,
flow range `(min, max)`, calibration factor and the float-to-int encoding
scale. -/
structure GasConfigEntry where
  name : String
  node_id : Nat
  cal_id : Option Nat
  flow_min : ℚ
  flow_max : ℚ
  cal_factor : ℚ
  float_to_int_factor : ℚ
deriving DecidableEq, Repr

/-- The loaded gas configuration (the dictionaries built in
`load_gas_config`, keyed by gas name). -/
abbrev GasConfig := List GasConfigEntry

/-- Lookup of a gas name in the configuration (`gas in self.gas_list` plus
the per-gas dictionary reads). -/
def findGas (cfg : GasConfig) (gas : String) : Option GasConfigEntry :=
  cfg.find? (fun e => e.name == gas)

/-- Python `int()` applied to a rational: truncation toward zero. -/
def pyInt (q : ℚ) : ℤ :=
  if 0 ≤ q then ⌊q⌋ else ⌈q⌉

/-- A single parameter write sent to the propar master by
`set_flowrate` (`write_parameters`): either the calibration-curve id
(proc 1, parm 16) or the int16 flow setpoint (proc 1, parm 1). -/
inductive DeviceWrite
  | calWrite (node : Nat) (calId : Nat)
  | setpointWrite (node : Nat) (data : ℤ)
deriving DecidableEq, Repr

/-- One operator interaction at the out-of-range console prompt of
`set_flowrate`: the literal answer `"Yes"` together with the subsequently
entered new flow, the literal answer `"No"`, or any other answer text. -/
inductive Answer
  | yes (newFlow : ℚ)
  | no
  | other (text : String)
deriving DecidableEq, Repr

/-- Abnormal terminations of `set_flowrate`: `ValueError` for an unknown
gas, `SystemExit` when the operator answers `"No"`, and `blocked` when the
model's finite operator-input stream is exhausted while the code would
still be waiting on `input()`. -/
inductive FlowError
  | valueError
  | systemExit
  | blocked
deriving DecidableEq, Repr

/-- The observable outcome of a completed `set_flowrate` call: the final
converted flow, the `feed_gas` invocations and the device writes, in
program order. -/
structure FlowOutcome where
  flowConv : ℚ
  feeds : List String
  writes : List DeviceWrite
deriving DecidableEq, Repr

/-- The range test performed by one iteration of the `while True` loop of
`set_flowrate`: a `None` or zero flow converts to 0 and bypasses the range
checks; otherwise the flow is divided by the calibration factor and
compared against the flow range. -/
inductive RangeCheck
  | inRange (conv : ℚ)
  | low (conv : ℚ)
  | high (conv : ℚ)
deriving DecidableEq, Repr

/-- One iteration's range test of the `set_flowrate` loop
(`flowSMS.py` lines 75-109). -/
def rangeCheck (e : GasConfigEntry) (flow : Option ℚ) : RangeCheck :=
  match flow with
  | none => .inRange 0
  | some f =>
    if f = 0 then .inRange 0
    else
      let conv := f / e.cal_factor
      if conv < e.flow_min then .low conv
      else if e.flow_max < conv then .high conv
      else .inRange conv

/-- The `while True` validation loop of `set_flowrate`
(`flowSMS.py` lines 74-109): when the converted flow is out of range the
bound violation is printed and the operator is prompted — `"Yes"` re-reads
a new flow and repeats the loop, `"No"` raises `SystemExit`, and any other
answer breaks out of the loop with the out-of-range converted value still
in effect. The finite `answers` stream models the console; exhausting it
while the code would still be waiting on `input()` yields `blocked`. -/
def validateFlow (e : GasConfigEntry) (flow : Option ℚ) : List Answer → Except FlowError ℚ
  | [] =>
    match rangeCheck e flow with
    | .inRange conv => .ok conv
    | .low _ => .error .blocked
    | .high _ => .error .blocked
  | a :: rest =>
    match rangeCheck e flow with
    | .inRange conv => .ok conv
    | .low conv | .high conv =>
      match a with
      | .yes f2 => validateFlow e (some f2) rest
      | .no => .error .systemExit
      | .other _ => .ok conv

/-- `FlowSMS.set_flowrate(gas, flow)` (`flowSMS.py` lines 60-140).
An unknown gas raises `ValueError` before any other action; the flow is
validated by `validateFlow`; a strictly positive converted flow triggers
`valves.feed_gas(gas)`; the setpoint data is `int(flow_conv * 32000 /
float_to_int_factor)`; the parameter batch holds the calibration-curve id
whenever the gas defines one, followed by the setpoint write, both on the
gas's node. -/
def set_flowrate (cfg : GasConfig) (gas : String) (flow : Option ℚ)
    (answers : List Answer) : Except FlowError FlowOutcome :=
  match findGas cfg gas with
  | none => .error .valueError
  | some e =>
    match validateFlow e flow answers with
    | .error err => .error err
    | .ok conv =>
      let flow_data := pyInt (conv * 32000 / e.float_to_int_factor)
      let calWrites : List DeviceWrite :=
        match e.cal_id with
        | some c => [.calWrite e.node_id c]
        | none => []
      .ok { flowConv := conv
            feeds := if 0 < conv then [gas] else []
            writes := calWrites ++ [.setpointWrite e.node_id flow_data] }

/-- The device writes a `set_flowrate` call performed: none when it
terminated abnormally (in the source every `raise` precedes `feed_gas`
and `write_parameters`). -/
def writesOf : Except FlowError FlowOutcome → List DeviceWrite
  | .ok o => o.writes
  | .error _ => []

/-- The `feed_gas` invocations a `set_flowrate` call performed. -/
def feedsOf : Except FlowError FlowOutcome → List String
  | .ok o => o.feeds
  | .error _ => []

/-- The node and data of the setpoint write (the last parameter in the
batch sent by `set_flowrate`), when the call completed. -/
def writtenSetpoint (r : Except FlowError FlowOutcome) : Option (Nat × ℤ) :=
  match r with
  | .ok o =>
    match o.writes.getLast? with
    | some (.setpointWrite n d) => some (n, d)
    | _ => none
  | .error _ => none

/-- The gas `"Ar_A"` as configured in the repository's gas table: carrier
MFC node, calibration curve 1 (Ar), flow range `[1.2, 60.0]` sccm,
calibration factor `1.0`, float-to-int factor `60`. -/
def arA : GasConfigEntry :=
  { name := "Ar_A", node_id := 12, cal_id := some 1
    flow_min := 6/5, flow_max := 60, cal_factor := 1
    float_to_int_factor := 60 }

/-- A one-gas demonstration configuration holding `"Ar_A"`. -/
def demoCfg : GasConfig := [arA]

/-- The `gas_params` table of `FlowSMS.setpoints` (`flowSMS.py` lines
262-273): each mutually-exclusive gas family sharing one controller,
keyed by its primary member, with its members in the order the code scans
them. -/
def gas_params : List (String × List String) :=
  [("H2_A", ["H2_A", "D2_A"]),
   ("H2_B", ["H2_B", "D2_B"]),
   ("O2_A", ["O2_A"]),
   ("O2_B", ["O2_B"]),
   ("CH4_A", ["CH4_A", "C2H6_A", "C3H8_A"]),
   ("CH4_B", ["CH4_B", "C2H6_B", "C3H8_B"]),
   ("CO_AH", ["CO_AH", "CO2_AH", "CO_AL", "CO2_AL"]),
   ("CO_BH", ["CO_BH", "CO2_BH", "CO_BL", "CO2_BL"]),
   ("He_A", ["He_A", "Ar_A", "N2_A"]),
   ("He_B", ["He_B", "Ar_B", "N2_B"])]

/-- The keyword arguments of a `setpoints(**kwargs)` call: a finite map
from gas name to the passed value, where `none` models the Python value
`None`. Keys are unique, as in a Python `dict`. -/
abbrev Kwargs := List (String × Option ℚ)

/-- The inner `for option in options` scan of `FlowSMS.setpoints`: the
first family member present in `kwargs` with a non-`None` value, together
with that value. -/
def firstSpecified (kwargs : Kwargs) : List String → Option (String × ℚ)
  | [] => none
  | o :: rest =>
    match kwargs.lookup o with
    | some (some v) => some (o, v)
    | _ => firstSpecified kwargs rest

/-- The `set_flowrate` call(s) made for one family by `FlowSMS.setpoints`:
the first member present with a non-`None` value, or — the `for`-`else`
branch — the family's primary member (`options[0]`) with flow `0.0`. -/
def familyCalls (kwargs : Kwargs) (options : List String) : List (String × ℚ) :=
  match firstSpecified kwargs options with
  | some ov => [ov]
  | none => [(options.headD "", 0)]

/-- `FlowSMS.setpoints(**kwargs)` (`flowSMS.py` lines 259-284), modelled
as the chronological list of `(gas, flow)` pairs it passes to
`set_flowrate`. -/
def setpoints (kwargs : Kwargs) : List (String × ℚ) :=
  gas_params.flatMap (fun p => familyCalls kwargs p.2)

/-- An acknowledgement coming back from
`self.modbustcp.write_single_register`: `none` is Python's `None`, and
`some b` is any other response, with `b` recording its Python truthiness
(so `some false` models a falsy, non-`None` response such as `False`, `0`
or `""`). -/
abbrev Ack := Option Bool

/-- The observable outcome of `EuroTCP.retry_write`: the returned
boolean, how many write attempts were issued, and how many times
`time.sleep(retry_delay)` ran. -/
structure RetryOutcome where
  success : Bool
  attempts : Nat
  sleeps : Nat
deriving DecidableEq, Repr

/-- The `while retries < max_retries` loop of `EuroTCP.retry_write`
(`eurothermTCP.py` lines 115-132), with `done` failed attempts so far and
fuel `max_retries - done`: each iteration issues one write; a response
that `is not None` returns `True` at once; a `None` response counts the
retry and sleeps. -/
def retry_write_go (transport : Nat → Ack) (done : Nat) : Nat → RetryOutcome
  | 0 => ⟨false, done, done⟩
  | fuel + 1 =>
    match transport done with
    | some _ => ⟨true, done + 1, done⟩
    | none => retry_write_go transport (done + 1) fuel

/-- `EuroTCP.retry_write(register, value, description, max_retries,
retry_delay)`: the register, value, description and delay do not affect
the control flow, so the model takes only the transport oracle (mapping
the attempt number to its acknowledgement) and the retry bound. -/
def retry_write (transport : Nat → Ack) (max_retries : Nat) : RetryOutcome :=
  retry_write_go transport 0 max_retries

/-- Python's negative indexing `s[-2]`: the next-to-last character of a
device response, when the response has at least two characters. -/
def pyNeg2 (l : List Char) : Option Char :=
  l.reverse.get? 1

/-- The errors a valve operation can raise: `indexError` models the
`IndexError` Python raises when a response string is too short for the
`[1]` / `[-2]` indexing. -/
inductive ValveError
  | indexError
deriving DecidableEq, Repr

/-- A command written to the valve controller, abstracting the distinct
wire strings of `valves.py`: `actuate v true` is `"/{v}CC"` (move ON),
`actuate v false` is `"/{v}CW"` (move OFF), `query v` is `"/{v}CP"`. -/
inductive WireCmd
  | actuate (valve : Char) (isOn : Bool)
  | query (valve : Char)
deriving DecidableEq, Repr

/-- `ValvesBase.get_valve_position(valve)` (`valves.py` lines 42-61),
applied to the device's response: reads `response[1]` as the valve number
and `response[-2]` as the position code, mapping `'A'` to `"OFF"`, `'B'`
to `"ON"` and anything else to `"Unknown"`; a response shorter than two
characters makes the indexing raise `IndexError`. -/
def get_valve_position (response : List Char) : Except ValveError (Char × String) :=
  match response.get? 1 with
  | none => .error .indexError
  | some valve_no =>
    match pyNeg2 response with
    | none => .error .indexError
    | some c =>
      .ok (valve_no, if c = 'A' then "OFF" else if c = 'B' then "ON" else "Unknown")

/-- `ValvesBase.move_valve_to_position(valve, position)` (`valves.py`
lines 78-102), as the list of commands written to the controller. An
invalid position prints a message and returns without writing. Otherwise
the actuation command is sent, the position is queried after the settle
delay, and `response[-2]` (the oracle `response`) is compared with the
expected code (`'B'` for ON, `'A'` for OFF): on mismatch the actuation
command is resent once, and the function returns without re-checking. -/
def move_valve_to_position (valve : Char) (position : String) (response : List Char) :
    Except ValveError (List WireCmd) :=
  if position = "ON" ∨ position = "OFF" then
    let isOn := position = "ON"
    let expected := if position = "ON" then 'B' else 'A'
    match pyNeg2 response with
    | none => .error .indexError
    | some c =>
      .ok ([.actuate valve isOn, .query valve] ++
        if c = expected then [] else [.actuate valve isOn])
  else .ok []

/-- The alarm classification of one pressure sample by the watchdog of
`pressure_alarm` (`utils.py` lines 246-279): either line above the high
threshold is a high-pressure alarm; otherwise either line below the low
threshold is a low-pressure alarm. -/
inductive Alarm
  | highPressure
  | lowPressure
deriving DecidableEq, Repr

/-- One pressure sample `(p_a, p_b)` returned by
`FlowSMS.pressure_report`. -/
abbrev Pressure := ℚ × ℚ

/-- The threshold test of one `monitor_pressure` iteration. -/
def checkAlarm (lo hi : ℚ) (p : Pressure) : Option Alarm :=
  if hi < p.1 ∨ hi < p.2 then some .highPressure
  else if p.1 < lo ∨ p.2 < lo then some .lowPressure
  else none

/-- An observable action of the watchdog thread: the no-argument
`self.flowSMS.setpoints()` call (all setpoints zero), setting the shared
`finished` event, the `self.setpoint_finish_experiment()` temperature
setback, and the 1 s polling sleep. -/
inductive MonAction
  | setpointsAllZero
  | setFinished
  | tempShutdown
  | sleep
deriving DecidableEq, Repr

/-- A completed run of the watchdog: the sample index and alarm kind at
which it triggered (if any), and every action it performed, tagged with
the index of the sample being handled. -/
structure MonitorRun where
  trigger : Option (Nat × Alarm)
  actions : List (Nat × MonAction)
deriving DecidableEq, Repr

/-- The `while not finished.is_set()` loop of `monitor_pressure`
(`utils.py` lines 246-279), polling the pressure stream from sample index
`idx` on. On a threshold breach it calls `setpoints()`, prints the alarm,
sets `finished` and calls `setpoint_finish_experiment()`, then returns;
otherwise it sleeps 1 s and polls the next sample. The list `samples`
holds the samples read while `finished` is still unset, so its end models
the guarded operation completing (which sets `finished` externally). -/
def monitor_go (lo hi : ℚ) (idx : Nat) : List Pressure → MonitorRun
  | [] => ⟨none, []⟩
  | p :: rest =>
    match checkAlarm lo hi p with
    | some a =>
      ⟨some (idx, a),
       [(idx, .setpointsAllZero), (idx, .setFinished), (idx, .tempShutdown)]⟩
    | none =>
      let r := monitor_go lo hi (idx + 1) rest
      ⟨r.trigger, (idx, .sleep) :: r.actions⟩

/-- The watchdog spawned by the `pressure_alarm` decorator, started at
sample index 0. -/
def monitor_pressure (lo hi : ℚ) (samples : List Pressure) : MonitorRun :=
  monitor_go lo hi 0 samples

/-- Truncation toward zero differs from rounding to nearest by at most
one: the gap between Python's `int()` and the spec's `round`. -/
theorem abs_pyInt_sub_round_le_one (x : ℚ) : |pyInt x - round x| ≤ 1 := by
  have h1 : ⌊x⌋ ≤ ⌊x + 1 / 2⌋ := Int.floor_le_floor (by linarith)
  have h3 : ⌊x + 1 / 2⌋ ≤ ⌊x + 1⌋ := Int.floor_le_floor (by linarith)
  rw [Int.floor_add_one] at h3
  have h4 : ⌈x⌉ ≤ ⌊x⌋ + 1 := Int.ceil_le_floor_add_one x
  have h5 : ⌊x⌋ ≤ ⌈x⌉ := Int.floor_le_ceil x
  rw [round_eq]
  unfold pyInt
  split <;> exact abs_le.mpr ⟨by omega, by omega⟩

/-- A non-zero in-range flow passes the validation loop unchanged and
without consuming any operator input. -/
theorem validateFlow_inRange (e : GasConfigEntry) (f : ℚ) (answers : List Answer)
    (hlo : e.flow_min ≤ f / e.cal_factor) (hhi : f / e.cal_factor ≤ e.flow_max) :
    validateFlow e (some f) answers = .ok (f / e.cal_factor) := by
  by_cases hf : f = 0
  · subst hf
    cases answers <;> simp [validateFlow, rangeCheck, zero_div]
  · have hrc : rangeCheck e (some f) = .inRange (f / e.cal_factor) := by
      simp [rangeCheck, hf, not_lt.mpr hlo, not_lt.mpr hhi]
    cases answers <;> simp [validateFlow, hrc]

/-- Claim C1: for every gas known to the calibration table and every flow
whose converted value lies within the gas's flow range,
`set_flowrate(gas, flow)` writes to the gas's device node a setpoint value
equal to `round(flow / cal_factor * 32000 / float_to_int_factor)` within
one quantization unit. -/
theorem set_flowrate_quantization (cfg : GasConfig) (gas : String)
    (e : GasConfigEntry) (f : ℚ) (hfind : findGas cfg gas = some e)
    (hlo : e.flow_min ≤ f / e.cal_factor) (hhi : f / e.cal_factor ≤ e.flow_max) :
    ∃ d : ℤ, writtenSetpoint (set_flowrate cfg gas (some f) []) = some (e.node_id, d) ∧
      |d - round (f / e.cal_factor * 32000 / e.float_to_int_factor)| ≤ 1 := by
  have hval := validateFlow_inRange e f [] hlo hhi
  refine ⟨pyInt (f / e.cal_factor * 32000 / e.float_to_int_factor), ?_,
    abs_pyInt_sub_round_le_one _⟩
  rcases hc : e.cal_id with _ | c <;>
    simp [set_flowrate, hfind, hval, hc, writtenSetpoint]

/-- Witness for claim C1 at the concrete gas `"Ar_A"` of the repository's
table and the requested flow 15.0 sccm: the hypotheses hold, the theorem
applies, and the written setpoint is exactly 8000 device units on node 12. -/
theorem set_flowrate_quantization_witness :
    (findGas demoCfg "Ar_A" = some arA ∧ arA.flow_min ≤ 15 / arA.cal_factor ∧
      (15 : ℚ) / arA.cal_factor ≤ arA.flow_max) ∧
    (∃ d : ℤ, writtenSetpoint (set_flowrate demoCfg "Ar_A" (some 15) []) = some (arA.node_id, d) ∧
      |d - round ((15 : ℚ) / arA.cal_factor * 32000 / arA.float_to_int_factor)| ≤ 1) ∧
    writtenSetpoint (set_flowrate demoCfg "Ar_A" (some 15) []) = some (12, 8000) :=
  ⟨⟨rfl, by norm_num [arA], by norm_num [arA]⟩,
   set_flowrate_quantization demoCfg "Ar_A" arA 15 rfl (by norm_num [arA]) (by norm_num [arA]),
   by norm_num [writtenSetpoint, set_flowrate, findGas, validateFlow, rangeCheck, pyInt,
     demoCfg, arA, List.find?]⟩

/-- Counterexample to claim C3: for a gas that defines a calibration-curve
id (here `"Ar_A"`, curve 1), `set_flowrate(gas, 0)` does write the
calibration-curve id to the device, because the `gas_cal` write in
`set_flowrate` is guarded only by the id being defined, not by the flow
being non-zero. -/
theorem set_flowrate_zero_writes_cal :
    DeviceWrite.calWrite 12 1 ∈ writesOf (set_flowrate demoCfg "Ar_A" (some 0) []) ∧
    set_flowrate demoCfg "Ar_A" (some 0) [] =
      .ok ⟨0, [], [DeviceWrite.calWrite 12 1, DeviceWrite.setpointWrite 12 0]⟩ := by
  constructor
  · norm_num [writesOf, set_flowrate, findGas, validateFlow, rangeCheck, pyInt,
      demoCfg, arA, List.find?]
  · norm_num [set_flowrate, findGas, validateFlow, rangeCheck, pyInt,
      demoCfg, arA, List.find?]

/-- Claim C3 as amended: `set_flowrate(gas, 0)` and
`set_flowrate(gas, None)` are fully equivalent — converted value 0, range
checks bypassed, no feed-gas action — but the calibration-curve id, when
the gas defines one, is still written ahead of the zero setpoint. -/
theorem set_flowrate_zero_none_equiv (cfg : GasConfig) (gas : String)
    (answers : List Answer) :
    set_flowrate cfg gas (some 0) answers = set_flowrate cfg gas none answers ∧
    ∀ e, findGas cfg gas = some e →
      set_flowrate cfg gas none answers =
        .ok { flowConv := 0, feeds := [],
              writes := (match e.cal_id with
                         | some c => [DeviceWrite.calWrite e.node_id c]
                         | none => []) ++ [DeviceWrite.setpointWrite e.node_id 0] } := by
  have hz : ∀ e : GasConfigEntry, validateFlow e (some 0) answers = .ok 0 := by
    intro e; cases answers <;> simp [validateFlow, validateFlow, rangeCheck]
  have hn : ∀ e : GasConfigEntry, validateFlow e none answers = .ok 0 := by
    intro e; cases answers <;> simp [validateFlow, rangeCheck]
  constructor
  · cases hfind : findGas cfg gas with
    | none => simp [set_flowrate, hfind]
    | some e => simp [set_flowrate, hfind, hz e, hn e]
  · intro e hfind
    rcases hc : e.cal_id with _ | c <;>
      simp [set_flowrate, hfind, hn e, hc, pyInt]

/-- Witness for the amended claim C3 at the gas `"Ar_A"`: both zero-flow
forms produce the calibration write followed by a zero setpoint, and no
feed action. -/
theorem set_flowrate_zero_none_equiv_witness :
    (set_flowrate demoCfg "Ar_A" (some 0) [] = set_flowrate demoCfg "Ar_A" none []) ∧
    findGas demoCfg "Ar_A" = some arA ∧
    set_flowrate demoCfg "Ar_A" none [] =
      .ok { flowConv := 0, feeds := [],
            writes := (match arA.cal_id with
                       | some c => [DeviceWrite.calWrite arA.node_id c]
                       | none => []) ++ [DeviceWrite.setpointWrite arA.node_id 0] } :=
  ⟨(set_flowrate_zero_none_equiv demoCfg "Ar_A" []).1, rfl,
   (set_flowrate_zero_none_equiv demoCfg "Ar_A" []).2 arA rfl⟩

/-- Claim C6, evaluated at the failing input: for the gas `"Ar_A"`
(maximum converted flow 60 sccm) and the out-of-range request 100 sccm,
when the operator's answer to the prompt is neither `"Yes"` nor `"No"`
the validation loop breaks and the out-of-range setpoint 53333 device
units (beyond the 32000 full-scale encoding of the 60 sccm maximum) is
written to node 12 with neither a corrected value nor an abort. -/
theorem set_flowrate_range_override_bug :
    set_flowrate demoCfg "Ar_A" (some 100) [Answer.other "ok"] =
      .ok ⟨100, ["Ar_A"], [DeviceWrite.calWrite 12 1, DeviceWrite.setpointWrite 12 53333]⟩ ∧
    arA.flow_max < 100 ∧ (32000 : ℤ) < 53333 := by
  refine ⟨?_, by norm_num [arA], by norm_num⟩
  norm_num [set_flowrate, findGas, validateFlow, rangeCheck, pyInt, demoCfg, arA, List.find?]

/-- Claim C10: for every gas name absent from the loaded configuration and
every flow value, `set_flowrate` raises `ValueError` before any valve
actuation or device write, leaving all device-facing state unchanged. -/
theorem set_flowrate_unknown_gas_atomic (cfg : GasConfig) (gas : String)
    (flow : Option ℚ) (answers : List Answer)
    (h : ∀ e ∈ cfg, e.name ≠ gas) :
    set_flowrate cfg gas flow answers = .error .valueError ∧
    writesOf (set_flowrate cfg gas flow answers) = [] ∧
    feedsOf (set_flowrate cfg gas flow answers) = [] := by
  have hfind : findGas cfg gas = none := by
    rw [findGas, List.find?_eq_none]
    intro e he
    simpa using h e he
  simp [set_flowrate, hfind, writesOf, feedsOf]

/-- Witness for claim C10: the gas name `"XY"` is not in the
demonstration configuration, and `set_flowrate` on it fails atomically. -/
theorem set_flowrate_unknown_gas_atomic_witness :
    (∀ e ∈ demoCfg, e.name ≠ "XY") ∧
    (set_flowrate demoCfg "XY" (some 5) [] = .error .valueError ∧
      writesOf (set_flowrate demoCfg "XY" (some 5) []) = [] ∧
      feedsOf (set_flowrate demoCfg "XY" (some 5) []) = []) :=
  ⟨by decide, set_flowrate_unknown_gas_atomic demoCfg "XY" (some 5) [] (by decide)⟩

/-- If some sample at or after the start of the stream breaches a
threshold, the watchdog loop triggers at some sample no later than it,
and its triggering iteration performs the all-zero setpoints call, sets
the shared `finished` event and commands the temperature setback. -/
theorem monitor_go_trigger_le (lo hi : ℚ) (samples : List Pressure) :
    ∀ (idx k : Nat) (pk : Pressure), samples.get? k = some pk →
      checkAlarm lo hi pk ≠ none →
      ∃ j a, j ≤ k ∧ (monitor_go lo hi idx samples).trigger = some (idx + j, a) ∧
        (idx + j, MonAction.setpointsAllZero) ∈ (monitor_go lo hi idx samples).actions ∧
        (idx + j, MonAction.setFinished) ∈ (monitor_go lo hi idx samples).actions ∧
        (idx + j, MonAction.tempShutdown) ∈ (monitor_go lo hi idx samples).actions := by
  induction samples with
  | nil => intro idx k pk hk; simp at hk
  | cons p rest ih =>
    intro idx k pk hk halarm
    cases hc : checkAlarm lo hi p with
    | some a =>
      exact ⟨0, a, Nat.zero_le k, by simp [monitor_go, hc]⟩
    | none =>
      cases k with
      | zero =>
        rw [List.get?_cons_zero, Option.some_inj] at hk
        exact absurd (hk ▸ hc) halarm
      | succ k2 =>
        obtain ⟨j, a, hj, htr, h1, h2, h3⟩ :=
          ih (idx + 1) k2 pk (by simpa using hk) halarm
        have harith : idx + 1 + j = idx + (j + 1) := by omega
        rw [harith] at htr h1 h2 h3
        exact ⟨j + 1, a, Nat.succ_le_succ hj,
          by simp [monitor_go, hc, htr],
          by simp [monitor_go, hc, h1],
          by simp [monitor_go, hc, h2],
          by simp [monitor_go, hc, h3]⟩

/-- Claim C2: whenever some pressure sample `k` has line A or line B
above the high threshold, the watchdog triggers at some sample `j ≤ k`
(that is, no later than one polling interval after sample `k`), and in
that same iteration issues the no-argument all-zero `setpoints()` call,
sets the shared `finished` flag and commands the temperature
safe-shutdown. -/
theorem monitor_pressure_high_alarm (lo hi : ℚ) (samples : List Pressure)
    (k : Nat) (pk : Pressure) (hk : samples.get? k = some pk)
    (hbreach : hi < pk.1 ∨ hi < pk.2) :
    ∃ j a, j ≤ k ∧ (monitor_pressure lo hi samples).trigger = some (j, a) ∧
      (j, MonAction.setpointsAllZero) ∈ (monitor_pressure lo hi samples).actions ∧
      (j, MonAction.setFinished) ∈ (monitor_pressure lo hi samples).actions ∧
      (j, MonAction.tempShutdown) ∈ (monitor_pressure lo hi samples).actions := by
  have halarm : checkAlarm lo hi pk ≠ none := by
    simp [checkAlarm, if_pos hbreach]
  have h := monitor_go_trigger_le lo hi samples 0 k pk hk halarm
  simpa [monitor_pressure] using h

/-- Witness for claim C2: with thresholds 10 and 30, on the stream
`[(20,20), (40,15)]` line A crosses the high threshold at sample 1, and
the watchdog triggers there with all three safe-state actions. -/
theorem monitor_pressure_high_alarm_witness :
    ([((20 : ℚ), (20 : ℚ)), (40, 15)].get? 1 = some (40, 15) ∧
      ((30 : ℚ) < 40 ∨ (30 : ℚ) < 15)) ∧
    (∃ j a, j ≤ 1 ∧
      (monitor_pressure 10 30 [(20, 20), (40, 15)]).trigger = some (j, a) ∧
      (j, MonAction.setpointsAllZero) ∈ (monitor_pressure 10 30 [(20, 20), (40, 15)]).actions ∧
      (j, MonAction.setFinished) ∈ (monitor_pressure 10 30 [(20, 20), (40, 15)]).actions ∧
      (j, MonAction.tempShutdown) ∈ (monitor_pressure 10 30 [(20, 20), (40, 15)]).actions) :=
  ⟨⟨rfl, by norm_num⟩,
   monitor_pressure_high_alarm 10 30 [(20, 20), (40, 15)] 1 (40, 15) rfl (by norm_num)⟩

/-- Counterexample to claim C9: on the stream `[(40,15), (40,15),
(40,15)]` with thresholds 10 and 30 the alarm fires at sample 0 and two
further samples would still be available, yet the whole run performs the
all-zero setpoints call exactly once and records no action beyond the
triggering iteration — the watchdog does not re-issue safe-state commands
on subsequent polling intervals. -/
theorem monitor_pressure_no_reissue :
    (monitor_pressure 10 30 [(40, 15), (40, 15), (40, 15)]).trigger =
      some (0, Alarm.highPressure) ∧
    ((monitor_pressure 10 30 [(40, 15), (40, 15), (40, 15)]).actions.map
      Prod.snd).count MonAction.setpointsAllZero = 1 ∧
    (monitor_pressure 10 30 [(40, 15), (40, 15), (40, 15)]).actions =
      [(0, MonAction.setpointsAllZero), (0, MonAction.setFinished),
       (0, MonAction.tempShutdown)] := by
  refine ⟨?_, ?_, ?_⟩
  · norm_num [monitor_pressure, monitor_go, checkAlarm]
  · norm_num [monitor_pressure, monitor_go, checkAlarm, List.count_cons]
    decide
  · norm_num [monitor_pressure, monitor_go, checkAlarm]

/-- The watchdog loop performs the all-zero setpoints call at most once,
trigger indices never precede the starting index, and no action is
recorded for any iteration after the triggering one. -/
theorem monitor_go_stops (lo hi : ℚ) (samples : List Pressure) :
    ∀ idx : Nat,
      (((monitor_go lo hi idx samples).actions.map Prod.snd).count
        MonAction.setpointsAllZero ≤ 1) ∧
      (∀ j a, (monitor_go lo hi idx samples).trigger = some (j, a) → idx ≤ j) ∧
      (∀ j a, (monitor_go lo hi idx samples).trigger = some (j, a) →
        ∀ i act, (i, act) ∈ (monitor_go lo hi idx samples).actions → i ≤ j) := by
  induction samples with
  | nil => intro idx; simp [monitor_go]
  | cons p rest ih =>
    intro idx
    cases hc : checkAlarm lo hi p with
    | some a =>
      refine ⟨by simp [monitor_go, hc], ?_, ?_⟩
      · intro j a2 htr
        simp [monitor_go, hc] at htr
        omega
      · intro j a2 htr i act hmem
        simp [monitor_go, hc] at htr hmem
        rcases hmem with ⟨hi2, _⟩ | ⟨hi2, _⟩ | ⟨hi2, _⟩ <;> omega
    | none =>
      obtain ⟨ihcount, ihge, ihle⟩ := ih (idx + 1)
      refine ⟨by simpa [monitor_go, hc] using ihcount, ?_, ?_⟩
      · intro j a htr
        simp only [monitor_go, hc] at htr
        exact le_trans (by omega) (ihge j a htr)
      · intro j a htr i act hmem
        simp only [monitor_go, hc] at htr hmem
        simp at hmem
        rcases hmem with ⟨hi2, _⟩ | hmem
        · exact hi2 ▸ le_trans (by omega) (ihge j a htr)
        · exact ihle j a htr i act hmem

/-- Claim C9 as amended: once an alarm is detected the watchdog issues
the safe-state commands exactly once, sets the `finished` flag and stops
monitoring — the all-zero setpoints call happens at most once per run,
and no action is recorded after the triggering iteration. -/
theorem monitor_pressure_single_shot (lo hi : ℚ) (samples : List Pressure) :
    (((monitor_pressure lo hi samples).actions.map Prod.snd).count
      MonAction.setpointsAllZero ≤ 1) ∧
    (∀ j a, (monitor_pressure lo hi samples).trigger = some (j, a) →
      ∀ i act, (i, act) ∈ (monitor_pressure lo hi samples).actions → i ≤ j) := by
  obtain ⟨h1, _, h3⟩ := monitor_go_stops lo hi samples 0
  exact ⟨h1, h3⟩

/-- Witness for the amended claim C9: on a stream breaching the high
threshold at sample 1, every recorded action is at an iteration no later
than the triggering one, and the zeroing call count is at most one. -/
theorem monitor_pressure_single_shot_witness :
    (((monitor_pressure 10 30 [(20, 20), (40, 15)]).actions.map Prod.snd).count
      MonAction.setpointsAllZero ≤ 1) ∧
    (monitor_pressure 10 30 [(20, 20), (40, 15)]).trigger = some (1, Alarm.highPressure) ∧
    ((1, MonAction.setpointsAllZero) ∈ (monitor_pressure 10 30 [(20, 20), (40, 15)]).actions →
      (1 : Nat) ≤ 1) :=
  ⟨(monitor_pressure_single_shot 10 30 [(20, 20), (40, 15)]).1,
   by norm_num [monitor_pressure, monitor_go, checkAlarm],
   fun hmem => (monitor_pressure_single_shot 10 30 [(20, 20), (40, 15)]).2 1
     Alarm.highPressure (by norm_num [monitor_pressure, monitor_go, checkAlarm]) 1
     MonAction.setpointsAllZero hmem⟩

/-- One family's contribution to `setpoints`: a single `set_flowrate`
call, for the first member specified with a non-`None` value, or for the
primary member with flow zero. -/
theorem familyCalls_eq (kwargs : Kwargs) (opts : List String) :
    familyCalls kwargs opts = [(firstSpecified kwargs opts).getD (opts.headD "", 0)] := by
  unfold familyCalls
  cases firstSpecified kwargs opts <;> simp

/-- Counterexample to claim C4: in the request set
`{H2_A: 0.0, D2_A: 5.0}` the first member of the H2/D2 family present
with a value strictly greater than zero is `D2_A`, yet `setpoints` never
calls `set_flowrate` for `D2_A`: the scan stops at the first member whose
value is merely non-`None`, here `H2_A` with 0.0. -/
theorem setpoints_positive_request_dropped :
    (("D2_A", (5 : ℚ)) ∉ setpoints [("H2_A", some 0), ("D2_A", some 5)]) ∧
    ("H2_A", (0 : ℚ)) ∈ setpoints [("H2_A", some 0), ("D2_A", some 5)] ∧
    (∀ v : ℚ, ("D2_A", v) ∉ setpoints [("H2_A", some 0), ("D2_A", some 5)]) := by
  have heval : setpoints [("H2_A", some 0), ("D2_A", some 5)] =
      [("H2_A", 0), ("H2_B", 0), ("O2_A", 0), ("O2_B", 0), ("CH4_A", 0),
       ("CH4_B", 0), ("CO_AH", 0), ("CO_BH", 0), ("He_A", 0), ("He_B", 0)] := rfl
  rw [heval]
  refine ⟨by decide, by decide, ?_⟩
  intro v
  simp

/-- Claim C4 as amended: for each mutually-exclusive gas family,
`setpoints` makes exactly one `set_flowrate` call — for the first member
present in the request set with a non-`None` value (even if that value is
zero and a later member is positive), and otherwise for the family's
primary member with flow zero; the other members of the family are not
explicitly written. A call with no arguments therefore sets every
family's primary member to zero. -/
theorem setpoints_family_scan (kwargs : Kwargs) :
    setpoints kwargs =
      gas_params.map (fun p => (firstSpecified kwargs p.2).getD (p.1, 0)) ∧
    setpoints [] =
      [("H2_A", 0), ("H2_B", 0), ("O2_A", 0), ("O2_B", 0), ("CH4_A", 0),
       ("CH4_B", 0), ("CO_AH", 0), ("CO_BH", 0), ("He_A", 0), ("He_B", 0)] := by
  constructor
  · simp [setpoints, gas_params, familyCalls_eq]
  · rfl

/-- Counterexample to claim C5: `retry_write` tests the acknowledgement
with `is not None`, so against a transport whose every acknowledgement is
falsy but non-`None` (Python `False`, `0` or `""`) it returns `True` on
the very first attempt with no sleeps — not `False` after `maxRetries`
attempts as the claim's failure notion requires. -/
theorem retry_write_falsy_ack_succeeds :
    retry_write (fun _ => some false) 5 = ⟨true, 1, 0⟩ ∧
    (retry_write (fun _ => some false) 5).success = true := ⟨rfl, rfl⟩

/-- An all-`None` transport makes the retry loop spend all its fuel:
`done + fuel` attempts in total, sleeping after each failure. -/
theorem retry_write_go_allNone (t : Nat → Ack) (h : ∀ i, t i = none) :
    ∀ (fuel done : Nat), retry_write_go t done fuel = ⟨false, done + fuel, done + fuel⟩ := by
  intro fuel
  induction fuel with
  | zero => intro done; simp [retry_write_go]
  | succ f ih =>
    intro done
    have harith : done + 1 + f = done + (f + 1) := by omega
    simp [retry_write_go, h done, ih (done + 1), harith]

/-- The first non-`None` acknowledgement, after `k` `None` ones, makes
the retry loop return `True` at attempt `k + 1` with `k` sleeps. -/
theorem retry_write_go_firstSome (t : Nat → Ack) :
    ∀ (fuel done k : Nat), k < fuel → (∀ i, i < k → t (done + i) = none) →
      t (done + k) ≠ none →
      retry_write_go t done fuel = ⟨true, done + k + 1, done + k⟩ := by
  intro fuel
  induction fuel with
  | zero => intro done k hk; omega
  | succ f ih =>
    intro done k hk hnone hsome
    cases k with
    | zero =>
      rcases ha : t done with _ | b
      · exact absurd (by simpa using ha) hsome
      · simp [retry_write_go, ha]
    | succ k2 =>
      have h0 : t done = none := by simpa using hnone 0 (by omega)
      have hnone2 : ∀ i, i < k2 → t (done + 1 + i) = none := by
        intro i hi
        have := hnone (i + 1) (by omega)
        simpa [Nat.add_assoc, Nat.add_comm 1 i] using this
      have hsome2 : t (done + 1 + k2) ≠ none := by
        have harith : done + 1 + k2 = done + (k2 + 1) := by omega
        rw [harith]; exact hsome
      have := ih (done + 1) k2 (by omega) hnone2 hsome2
      have harith : done + 1 + k2 = done + (k2 + 1) := by omega
      rw [harith] at this
      simp [retry_write_go, h0, this]

/-- Claim C5 as amended: `retry_write` treats exactly a `None`
acknowledgement as failure — any non-`None` acknowledgement, falsy
included, counts as success and returns `True` at once. Against a
transport whose every acknowledgement is `None` it returns `False` after
exactly `maxRetries` attempts, sleeping the retry delay after each failed
attempt; the loop itself raises no exception. -/
theorem retry_write_spec (t : Nat → Ack) (n : Nat) :
    ((∀ i, t i = none) → retry_write t n = ⟨false, n, n⟩) ∧
    (∀ k, k < n → (∀ i, i < k → t i = none) → t k ≠ none →
      retry_write t n = ⟨true, k + 1, k⟩) := by
  constructor
  · intro h
    simpa using retry_write_go_allNone t h n 0
  · intro k hk hnone hsome
    simpa using retry_write_go_firstSome t n 0 k hk (by simpa using hnone) (by simpa using hsome)

/-- Witness for the amended claim C5: an always-`None` transport with
retry bound 3 yields `False` after exactly 3 attempts and 3 sleeps, and a
transport failing only on its first attempt yields `True` at attempt 2. -/
theorem retry_write_spec_witness :
    retry_write (fun _ => none) 3 = ⟨false, 3, 3⟩ ∧
    retry_write (fun i => if i = 0 then none else some true) 3 = ⟨true, 2, 1⟩ :=
  ⟨(retry_write_spec (fun _ => none) 3).1 (fun _ => rfl),
   (retry_write_spec (fun i => if i = 0 then none else some true) 3).2 1 (by omega)
     (fun i hi => by
       have h0 : i = 0 := by omega
       simp [h0]) (by decide)⟩

/-- A response of length at least two has a next-to-last character. -/
theorem pyNeg2_isSome (l : List Char) (h : 2 ≤ l.length) : ∃ c, pyNeg2 l = some c := by
  have hlen : 1 < l.reverse.length := by simpa using h
  exact ⟨l.reverse.get ⟨1, hlen⟩, List.get?_eq_get hlen⟩

/-- Claim C7: for a target position in `{ON, OFF}` and a well-formed
device response, `move_valve_to_position` sends the actuation command
followed by one position query, never sends more than three commands in
total, and sends a third (the single resend of the actuation command)
exactly when the response's position code differs from the expected code;
it then returns regardless, with no further check. -/
theorem move_valve_bounded_retry (valve : Char) (position : String)
    (response : List Char) (hpos : position = "ON" ∨ position = "OFF")
    (hlen : 2 ≤ response.length) :
    ∃ c cmds, pyNeg2 response = some c ∧
      move_valve_to_position valve position response = .ok cmds ∧
      cmds.take 2 = [WireCmd.actuate valve (decide (position = "ON")), WireCmd.query valve] ∧
      cmds.length ≤ 3 ∧
      (cmds.length = 3 ↔ c ≠ (if position = "ON" then 'B' else 'A')) := by
  obtain ⟨c, hc⟩ := pyNeg2_isSome response hlen
  by_cases hmatch : c = (if position = "ON" then 'B' else 'A')
  · refine ⟨c, [WireCmd.actuate valve (decide (position = "ON")), WireCmd.query valve],
      hc, ?_, rfl, by simp, by simp [hmatch]⟩
    simp [move_valve_to_position, hpos, hc, hmatch]
  · refine ⟨c, [WireCmd.actuate valve (decide (position = "ON")), WireCmd.query valve,
      WireCmd.actuate valve (decide (position = "ON"))],
      hc, ?_, rfl, by simp, by simp [hmatch]⟩
    simp [move_valve_to_position, hpos, hc, hmatch]

/-- Witness for claim C7 at valve `'A'`, position `"ON"`: a response
reporting code `'B'` (already in position) yields the two-command
sequence, with no resend. -/
theorem move_valve_bounded_retry_witness :
    ((("ON" : String) = "ON" ∨ ("ON" : String) = "OFF") ∧
      2 ≤ (['x', 'B', '\r'] : List Char).length) ∧
    (∃ c cmds, pyNeg2 ['x', 'B', '\r'] = some c ∧
      move_valve_to_position 'A' "ON" ['x', 'B', '\r'] = .ok cmds ∧
      cmds.take 2 = [WireCmd.actuate 'A' (decide (("ON" : String) = "ON")), WireCmd.query 'A'] ∧
      cmds.length ≤ 3 ∧
      (cmds.length = 3 ↔ c ≠ (if ("ON" : String) = "ON" then 'B' else 'A'))) :=
  ⟨⟨Or.inl rfl, by decide⟩,
   move_valve_bounded_retry 'A' "ON" ['x', 'B', '\r'] (Or.inl rfl) (by decide)⟩

/-- Counterexample to claim C8: the empty device response is a response
string for which `get_valve_position` does not return `Unknown` — the
`[1]` / `[-2]` indexing raises `IndexError` instead. -/
theorem get_valve_position_short_raises :
    get_valve_position [] = .error .indexError ∧
    ¬ ∃ vp : Char × String, get_valve_position [] = .ok vp := by
  refine ⟨rfl, ?_⟩
  rintro ⟨vp, h⟩
  simp [get_valve_position] at h

/-- Claim C8 as amended: for every device response of length at least
two, `get_valve_position` returns `OFF` when the next-to-last character
is `'A'`, `ON` when it is `'B'`, and `Unknown` for any other code; a
response shorter than two characters raises `IndexError` instead. -/
theorem get_valve_position_mapping (response : List Char) :
    (2 ≤ response.length →
      ∃ vno c, response.get? 1 = some vno ∧ pyNeg2 response = some c ∧
        get_valve_position response =
          .ok (vno, if c = 'A' then "OFF" else if c = 'B' then "ON" else "Unknown")) ∧
    (response.length < 2 → get_valve_position response = .error .indexError) := by
  constructor
  · intro hlen
    obtain ⟨c, hc⟩ := pyNeg2_isSome response hlen
    have h1 : 1 < response.length := by omega
    refine ⟨response.get ⟨1, h1⟩, c, List.get?_eq_get h1, hc, ?_⟩
    unfold get_valve_position
    rw [List.get?_eq_get h1, hc]
  · intro hlen
    match response, hlen with
    | [], _ => rfl
    | [a], _ => rfl

/-- Witness for the amended claim C8: the four-character response
`"/5A\r"` has next-to-last character `'A'` and maps to valve `'5'`,
position `OFF`. -/
theorem get_valve_position_mapping_witness :
    2 ≤ (['/', '5', 'A', '\r'] : List Char).length ∧
    (∃ vno c, (['/', '5', 'A', '\r'] : List Char).get? 1 = some vno ∧
      pyNeg2 ['/', '5', 'A', '\r'] = some c ∧
      get_valve_position ['/', '5', 'A', '\r'] =
        .ok (vno, if c = 'A' then "OFF" else if c = 'B' then "ON" else "Unknown")) ∧
    get_valve_position ['/', '5', 'A', '\r'] = .ok ('5', "OFF") :=
  ⟨by decide, (get_valve_position_mapping ['/', '5', 'A', '\r']).1 (by decide), rfl⟩

end FasstCat
